import Mathlib

/-!
Verification of the authentication and session-token lifecycle of the
Team-DevOps-Hack-It-Out backend: the user schema (pre-save password
hashing, token issuance methods), the session controller
(registerUser, loginUser, logoutUser) and the access-verifier
middleware (verifyJWT), embedded as pure Lean functions over an
explicit store of user documents.
-/

namespace EnergyAuth

/-- Modelled from the spec: bcrypt is an external library. A digest is
an ideal collision-free salted hash, determined by the salt, the cost
factor and the hashed input; distinct inputs give distinct digests. -/
structure BcryptHash where
  cost : Nat
  salt : Nat
  input : String
deriving Repr, DecidableEq

/-- The password field of a stored record: either still plaintext
(never persisted in practice, since the pre-save hook hashes it) or a
bcrypt digest. -/
inductive Password where
  | plain : String → Password
  | hashed : BcryptHash → Password
deriving Repr, DecidableEq

/-- bcrypt.hash of a plaintext with a fresh salt; the user schema in
src/src/models/video.model.js fixes cost 11. -/
def bcryptHashStr (salt cost : Nat) (p : String) : BcryptHash :=
  ⟨cost, salt, p⟩

/-- Injective string rendering of a digest (the digest string itself,
as the password field holds in the database). -/
def BcryptHash.render (h : BcryptHash) : String :=
  toString h.cost ++ ":" ++ toString h.salt ++ ":" ++ h.input

/-- bcrypt.hash applied to whatever string the password field holds:
a plaintext is hashed, an already stored digest string would itself be
hashed again. -/
def hashPasswordField (salt cost : Nat) : Password → Password
  | .plain p => .hashed (bcryptHashStr salt cost p)
  | .hashed h => .hashed (bcryptHashStr salt cost h.render)

/-- Modelled from the spec: bcrypt.compare returns true exactly when
the candidate plaintext is the input the digest was computed from. -/
def bcryptCompare (p : String) (h : BcryptHash) : Bool :=
  p == h.input

/-- Payload of a signed token: generateAccessToken embeds id, Email,
UserName and fullName; generateRefreshToken embeds only the id. -/
inductive JwtPayload where
  | access (id : Nat) (email userName fullName : String)
  | refresh (id : Nat)
deriving Repr, DecidableEq

/-- Modelled from the spec: a signed token of the jsonwebtoken
library, carrying its payload, the secret it was signed with (standing
for the signature) and issue/expiry instants in seconds. -/
structure Jwt where
  payload : JwtPayload
  secret : String
  iat : Nat
  exp : Nat
deriving Repr, DecidableEq

/-- jwt.sign: stamps the payload with the secret and an absolute
expiry instant computed from the configured duration. -/
def jwtSign (payload : JwtPayload) (secret : String) (expiresIn now : Nat) : Jwt :=
  ⟨payload, secret, now, now + expiresIn⟩

/-- Failure modes of jwt.verify: a missing or malformed token, a bad
signature, an expired token. -/
inductive JwtError where
  | malformed
  | invalidSignature
  | expired
deriving Repr, DecidableEq

/-- A credential as it arrives on the wire: absent, an unparseable
string, or a genuinely signed token. -/
inductive Credential where
  | missing
  | garbled (raw : String)
  | signed (token : Jwt)
deriving Repr, DecidableEq

/-- Modelled from the spec: jwt.verify checks the signature against
the given secret and then the expiry against the clock; the
jsonwebtoken library reports expiry when the clock has reached the
exp instant. -/
def jwtVerify (cred : Credential) (secret : String) (now : Nat) :
    Except JwtError JwtPayload :=
  match cred with
  | .missing => .error .malformed
  | .garbled _ => .error .malformed
  | .signed t =>
    if t.secret ≠ secret then .error .invalidSignature
    else if t.exp ≤ now then .error .expired
    else .ok t.payload

/-- One persisted user document of the user schema. The stored
UserName and Email are kept lowercased and trimmed by the schema
setters; refreshToken holds the currently stored refresh token. -/
structure UserDoc where
  id : Nat
  userName : String
  email : String
  fullName : String
  avatar : String
  coverImage : String
  password : Password
  refreshToken : Option Jwt
  watchHistory : List Nat
deriving Repr, DecidableEq

/-- A user record as returned after select removing the password and
refreshToken paths. -/
structure PublicUser where
  id : Nat
  userName : String
  email : String
  fullName : String
  avatar : String
  coverImage : String
  watchHistory : List Nat
deriving Repr, DecidableEq

/-- The select removing password and refreshToken from a document. -/
def UserDoc.select (u : UserDoc) : PublicUser :=
  ⟨u.id, u.userName, u.email, u.fullName, u.avatar, u.coverImage, u.watchHistory⟩

/-- The database: the list of persisted user documents. -/
abbrev Store := List UserDoc

/-- user.findById: first document with the given primary key. -/
def findById (id : Nat) (store : Store) : Option UserDoc :=
  store.find? (fun u => u.id == id)

/-- Ascii lowercasing of one character, as toLowerCase acts on the
ascii range. -/
def charLower (c : Char) : Char :=
  if 65 ≤ c.toNat ∧ c.toNat ≤ 90 then Char.ofNat (c.toNat + 32) else c

/-- The toLowerCase transform, mapped over the characters. -/
def lowerStr (s : String) : String :=
  ⟨s.data.map charLower⟩

/-- A whitespace character in the sense of the trim setter. -/
def isWhiteChar (c : Char) : Bool :=
  c == ' ' || c == '\t' || c == '\n' || c == '\r'

/-- The trim transform: strips whitespace from both ends. -/
def trimStr (s : String) : String :=
  ⟨((s.data.dropWhile isWhiteChar).reverse.dropWhile isWhiteChar).reverse⟩

/-- The lowercase and trim schema setters, which mongoose also applies
to values appearing in query filters. -/
def normalizeKey (s : String) : String :=
  lowerStr (trimStr s)

/-- One branch of the controller filter with operator or over UserName
and Email: mongoose strips a key whose value is undefined from the
filter, so a branch with an absent value matches every document. -/
def branchMatches (field : UserDoc → String) (q : Option String) (u : UserDoc) : Bool :=
  match q with
  | none => true
  | some s => field u == normalizeKey s

/-- user.findOne with the or-filter over UserName and Email used by
registerUser and loginUser. -/
def findOneByUserNameOrEmail (qUserName qEmail : Option String) (store : Store) :
    Option UserDoc :=
  store.find? (fun u =>
    branchMatches (fun d => d.userName) qUserName u ||
    branchMatches (fun d => d.email) qEmail u)

/-- Errors surfacing from a controller: an ApiError with statusCode
and message, a mongoose required-field validation failure, or a plain
thrown runtime error. -/
inductive CtrlError where
  | api (statusCode : Nat) (message : String)
  | dbValidation (field : String)
  | thrown (message : String)
deriving Repr, DecidableEq

/-- The ApiResponse envelope. -/
structure ApiResponseOf (α : Type) where
  statusCode : Nat
  data : α
  message : String
deriving Repr, DecidableEq

/-- The pre-save hook of the user schema: rehashes the password with
cost 11 exactly when the password path was modified since load. -/
def preSaveHook (salt : Nat) (passwordModified : Bool) (u : UserDoc) : UserDoc :=
  if passwordModified then
    { u with password := hashPasswordField salt 11 u.password }
  else u

/-- Persisting a loaded-and-mutated document: every stored document
with the same primary key is replaced by the new value. -/
def saveToStore (u : UserDoc) (store : Store) : Store :=
  store.map (fun d => if d.id == u.id then u else d)

/-- Required fields passed by registerUser to user.create; fullName,
Email, password and UserName come straight from the request body and
may be absent. -/
structure CreateFields where
  fullName : Option String
  avatar : String
  coverImage : String
  email : Option String
  password : Option String
  userName : Option String
deriving Repr, DecidableEq

/-- user.create: applies the schema setters (trim on fullName,
lowercase and trim on UserName and Email), enforces the required
constraints (absent for a missing field, and a string field that is
empty after setters also fails required), runs the pre-save hook on
the fresh document (every path of a new document counts as modified),
and writes it, the unique indexes on UserName and Email rejecting a
duplicate with a duplicate-key error. -/
def mongooseCreate (salt freshId : Nat) (store : Store) (f : CreateFields) :
    Except CtrlError (UserDoc × Store) :=
  match f.fullName, f.email, f.password, f.userName with
  | some fn, some em, some pw, some un =>
    let fn := trimStr fn
    let em := normalizeKey em
    let un := normalizeKey un
    if fn == "" then .error (.dbValidation "fullName")
    else if em == "" then .error (.dbValidation "Email")
    else if pw == "" then .error (.dbValidation "password")
    else if un == "" then .error (.dbValidation "UserName")
    else if f.avatar == "" then .error (.dbValidation "avatar")
    else if store.any (fun u => u.userName == un || u.email == em) then
      .error (.thrown "E11000 duplicate key error")
    else
      let doc := preSaveHook salt true
        { id := freshId, userName := un, email := em, fullName := fn,
          avatar := f.avatar, coverImage := f.coverImage,
          password := .plain pw, refreshToken := none, watchHistory := [] }
      .ok (doc, store ++ [doc])
  | none, _, _, _ => .error (.dbValidation "fullName")
  | _, none, _, _ => .error (.dbValidation "Email")
  | _, _, none, _ => .error (.dbValidation "password")
  | _, _, _, none => .error (.dbValidation "UserName")

/-- The body of a registration request; any field may be absent. -/
structure RegisterBody where
  fullName : Option String
  email : Option String
  userName : Option String
  password : Option String
deriving Repr, DecidableEq

/-- The uploaded files of a registration request, as local paths. -/
structure RegisterFiles where
  avatarPath : Option String
  coverImagePath : Option String
deriving Repr, DecidableEq

/-- The blank test the controller applies to one field: the source
checks field question-mark trim equals the empty string, so an absent
field compares undefined against the empty string and is NOT blank. -/
def isBlankPresent (f : Option String) : Bool :=
  match f with
  | none => false
  | some s => trimStr s == ""

/-- registerUser of the user controller. The upload argument stands
for UploadOnCloudinary, mapping a local path to the resulting url if
the upload succeeds. Returns the HTTP status with the response
envelope, or the error thrown, together with the store after the
request. -/
def registerUser (upload : String → Option String) (salt freshId : Nat)
    (body : RegisterBody) (files : RegisterFiles) (store : Store) :
    Except CtrlError (Nat × ApiResponseOf PublicUser) × Store :=
  if isBlankPresent body.fullName || isBlankPresent body.email ||
     isBlankPresent body.userName || isBlankPresent body.password then
    (.error (.api 400 "all fields are required"), store)
  else match findOneByUserNameOrEmail body.userName body.email store with
  | some _ => (.error (.api 409 "UserName or Email already exists"), store)
  | none =>
    match files.avatarPath with
    | none => (.error (.api 400 "Avatar File 1 is required"), store)
    | some avatarLocalPath =>
      let avatar := upload avatarLocalPath
      let coverImage := files.coverImagePath.bind upload
      let coverImageurl := coverImage.getD ""
      match avatar with
      | none => (.error (.api 400 "Avatar File 2 is Required"), store)
      | some avatarUrl =>
        match body.userName with
        | none =>
          -- UserName.toLowerCase() on an absent field throws before create
          (.error (.thrown "Cannot read properties of undefined"), store)
        | some un =>
          match mongooseCreate salt freshId store
            { fullName := body.fullName, avatar := avatarUrl,
              coverImage := coverImageurl, email := body.email,
              password := body.password, userName := some (lowerStr un) } with
          | .error e => (.error e, store)
          | .ok (newuser, store1) =>
            match findById newuser.id store1 with
            | none =>
              (.error (.api 500 "Something went wrong while registering the user"), store1)
            | some createdUser =>
              (.ok (201, ⟨200, createdUser.select, "user registered succesfully"⟩), store1)

/-- The body of a login request. -/
structure LoginBody where
  userName : Option String
  email : Option String
  password : Option String
deriving Repr, DecidableEq

/-- Falsiness of an optional string under the bang operator: absent
and empty are falsy. -/
def isFalsy (f : Option String) : Bool :=
  match f with
  | none => true
  | some s => s == ""

/-- userSchema.methods.isPasswordCorrect: bcrypt.compare of the
candidate against the stored password field; an absent candidate or a
stored field that is not a bcrypt digest makes the library throw. -/
def UserDoc.isPasswordCorrect (u : UserDoc) (password : Option String) :
    Except CtrlError Bool :=
  match password with
  | none => .error (.thrown "data and hash arguments required")
  | some p =>
    match u.password with
    | .hashed h => .ok (bcryptCompare p h)
    | .plain _ => .error (.thrown "Not a valid BCrypt hash")

/-- The token secrets and expiry durations read from configuration. -/
structure TokenConfig where
  accessSecret : String
  refreshSecret : String
  accessExpiry : Nat
  refreshExpiry : Nat
deriving Repr, DecidableEq

/-- userSchema.methods.generateAccessToken: signs id, Email, UserName
and fullName with the access secret and the access expiry. -/
def UserDoc.generateAccessToken (u : UserDoc) (cfg : TokenConfig) (now : Nat) : Jwt :=
  jwtSign (.access u.id u.email u.userName u.fullName) cfg.accessSecret cfg.accessExpiry now

/-- userSchema.methods.generateRefreshToken: signs only the id with
the refresh secret and the refresh expiry. -/
def UserDoc.generateRefreshToken (u : UserDoc) (cfg : TokenConfig) (now : Nat) : Jwt :=
  jwtSign (.refresh u.id) cfg.refreshSecret cfg.refreshExpiry now

/-- Injectable internal failures of the token-generation step: the
signing call or the persistence call rejecting at runtime. -/
structure Faults where
  signFails : Bool
  saveFails : Bool
deriving Repr, DecidableEq

/-- generateAccessAndRefreshToken of the user controller: loads the
user, signs both tokens, stores the refresh token on the record and
saves skipping validators (the pre-save hook still runs, with the
password path unmodified). The whole body sits in a try block whose
catch rethrows every failure, the explicit 404 for a missing user
included, as ApiError 500 with the fixed message. -/
def generateAccessAndRefreshToken (cfg : TokenConfig) (salt now : Nat)
    (faults : Faults) (userId : Nat) (store : Store) :
    Except CtrlError (Jwt × Jwt) × Store :=
  match findById userId store with
  | none => (.error (.api 500 "problem is here"), store)
  | some u =>
    if faults.signFails then (.error (.api 500 "problem is here"), store)
    else
      let accessToken := u.generateAccessToken cfg now
      let refreshToken := u.generateRefreshToken cfg now
      let u1 := { u with refreshToken := some refreshToken }
      if faults.saveFails then (.error (.api 500 "problem is here"), store)
      else (.ok (accessToken, refreshToken), saveToStore (preSaveHook salt false u1) store)

/-- The data field of the login response: the source places the
in-memory document found at lookup, the full record, next to both
tokens. -/
structure LoginData where
  user : UserDoc
  accessToken : Jwt
  refreshToken : Jwt
deriving Repr, DecidableEq

/-- The login response: status, the two cookies set, and the body. -/
structure LoginResponse where
  status : Nat
  cookieAccessToken : Jwt
  cookieRefreshToken : Jwt
  body : ApiResponseOf LoginData
deriving Repr, DecidableEq

/-- loginUser of the user controller. The returned store is the
database after the request; on any thrown error it is unchanged. -/
def loginUser (cfg : TokenConfig) (salt now : Nat) (faults : Faults)
    (body : LoginBody) (store : Store) :
    Except CtrlError LoginResponse × Store :=
  if isFalsy body.email && isFalsy body.userName then
    (.error (.api 400 "enter username or email to continue"), store)
  else if body.password == some "" then
    (.error (.api 400 "enter your password"), store)
  else match findOneByUserNameOrEmail body.userName body.email store with
  | none => (.error (.api 409 "User donot exist"), store)
  | some existedUser =>
    match existedUser.isPasswordCorrect body.password with
    | .error e => (.error e, store)
    | .ok ok =>
      if !ok then (.error (.api 401 "invalid user credentials"), store)
      else
        match generateAccessAndRefreshToken cfg salt now faults existedUser.id store with
        | (.error e, store1) => (.error e, store1)
        | (.ok (accessToken, refreshToken), store1) =>
          -- both tokens are objects, so the falsiness guard never fires
          (.ok { status := 200, cookieAccessToken := accessToken,
                 cookieRefreshToken := refreshToken,
                 body := ⟨200, ⟨existedUser, accessToken, refreshToken⟩,
                          "User Logged in succesfully"⟩ }, store1)

/-- What the middleware attaches as req.user: the source assigns the
imported mongoose model object itself, never the awaited document. -/
inductive ReqUser where
  | model
  | doc (u : PublicUser)
deriving Repr, DecidableEq

/-- The request-scoped state the middleware sees: the access-token
cookie, the bearer token of the Authorization header, and the user
attachment. -/
structure Request where
  cookieAccessToken : Option Credential
  authHeaderToken : Option Credential
  user : Option ReqUser
deriving Repr, DecidableEq

/-- The message the thrown jwt error carries. -/
def jwtErrorMessage : JwtError → String
  | .malformed => "jwt must be provided or is malformed"
  | .invalidSignature => "invalid signature"
  | .expired => "jwt expired"

/-- The primary key a decoded payload carries. -/
def JwtPayload.primaryKey : JwtPayload → Nat
  | .access i _ _ _ => i
  | .refresh i => i

/-- verifyJWT of the auth middleware: takes the access-token cookie or
the bearer header, verifies it against the access secret, and on any
verification failure rethrows as ApiError 400. The source then starts
user.findById on the decoded id without awaiting or binding the
result, tests the always-truthy imported model instead, and assigns
that model object to req.user before calling next. -/
def verifyJWT (accessSecret : String) (now : Nat) (store : Store)
    (req : Request) : Except CtrlError Request :=
  let token :=
    match req.cookieAccessToken with
    | some c => c
    | none => req.authHeaderToken.getD .missing
  match jwtVerify token accessSecret now with
  | .error e => .error (.api 400 (jwtErrorMessage e))
  | .ok code =>
    let _ := (findById code.primaryKey store).map UserDoc.select
    .ok { req with user := some .model }

/-- The field access req.user._id: on a resolved document it is the
primary key; on the model object it is undefined. -/
def ReqUser.idField : ReqUser → Option Nat
  | .model => none
  | .doc u => some u.id

/-- user.findByIdAndUpdate with the unset of refreshToken: mongoose
deletes an undefined key from the filter, so an absent id leaves the
match-all filter and the first document of the collection is updated;
with a present id the matching document loses its refreshToken field.
No save hooks run. -/
def findByIdAndUpdateUnsetRefreshToken (id : Option Nat) (store : Store) : Store :=
  match id with
  | none =>
    match store with
    | [] => []
    | d :: tl => { d with refreshToken := none } :: tl
  | some i =>
    store.map (fun d => if d.id == i then { d with refreshToken := none } else d)

/-- The logout response: status, which cookies were cleared, body. -/
structure LogoutResponse where
  status : Nat
  clearedCookies : List String
  body : ApiResponseOf Unit
deriving Repr, DecidableEq

/-- logoutUser of the user controller: unsets the stored refresh
token of the record whose id is req.user._id, then clears both
cookies. -/
def logoutUser (store : Store) (req : Request) : LogoutResponse × Store :=
  let store1 := findByIdAndUpdateUnsetRefreshToken (req.user.bind ReqUser.idField) store
  (⟨200, ["accessToken", "refreshToken"], ⟨200, (), "user logged out successfully"⟩⟩, store1)

/-- The logout route: verifyJWT runs first; only if it passes does
logoutUser run on the request it produced. -/
def logoutRoute (accessSecret : String) (now : Nat) (store : Store)
    (req : Request) : Except CtrlError (LogoutResponse × Store) :=
  match verifyJWT accessSecret now store req with
  | .error e => .error e
  | .ok req1 => .ok (logoutUser store req1)

/-- A concrete token configuration for concrete scenarios. -/
def cfg0 : TokenConfig := ⟨"as", "rs", 60, 3600⟩

/-- A concrete registered user whose password secret123 was hashed by
the pre-save hook with salt 5 and the fixed cost 11. -/
def jane : UserDoc :=
  { id := 1, userName := "janedoe", email := "jane@x.com", fullName := "Jane Doe",
    avatar := "http://cdn/a.png", coverImage := "",
    password := .hashed ⟨11, 5, "secret123"⟩,
    refreshToken := none, watchHistory := [] }

/-- A concrete upload collaborator that always succeeds. -/
def upload0 : String → Option String := fun _ => some "http://cdn/a.png"

/-- A concrete stored refresh token of the user jane. -/
def refreshTok1 : Jwt := jwtSign (.refresh 1) "rs" 3600 50

/-- The user jane with a refresh token stored by a previous login. -/
def janeLoggedIn : UserDoc := { jane with refreshToken := some refreshTok1 }

/-- A second registered user, stored after jane, holding a refresh
token from a previous login. -/
def bobLoggedIn : UserDoc :=
  { id := 2, userName := "bobsmith", email := "bob@x.com", fullName := "Bob Smith",
    avatar := "http://cdn/b.png", coverImage := "",
    password := .hashed ⟨11, 7, "hunter2"⟩,
    refreshToken := some (jwtSign (.refresh 2) "rs" 3600 50),
    watchHistory := [] }

/-- A fresh, correctly signed, unexpired access token of bob. -/
def accessTok2 : Jwt := jwtSign (.access 2 "bob@x.com" "bobsmith" "Bob Smith") "as" 3600 50

/-- C1: the claim says the user object in a successful login response
omits the password-hash and refresh-token fields. The source places
the raw document found at lookup into the response body, so the body
carries the stored bcrypt digest: evaluating loginUser on a correct
credential shows the password field of the returned user equal to the
stored hash. -/
theorem c1_login_response_retains_password_hash :
    (loginUser cfg0 5 100 ⟨false, false⟩
        ⟨some "janedoe", none, some "secret123"⟩ [jane]).1.map
      (fun r => r.body.data.user.password)
      = .ok (.hashed ⟨11, 5, "secret123"⟩) := by
  rfl

/-- C2: the claim says a token whose primary key matches no stored
identity is rejected with UnauthenticatedError, and that on success
the resolved sanitized record is attached. The source neither awaits
nor binds the findById call and tests the always-truthy model object,
so over an empty store a fresh correctly signed token for id 7 is
accepted and the model object, not a resolved record, is attached. -/
theorem c2_verifier_accepts_token_of_absent_identity :
    verifyJWT "as" 100 []
      ⟨some (.signed (jwtSign (.access 7 "g@x" "ghost" "G") "as" 3600 50)), none, none⟩
      = .ok ⟨some (.signed (jwtSign (.access 7 "g@x" "ghost" "G") "as" 3600 50)),
             none, some .model⟩ := by
  rfl

/-- C3: the claim says a logout with a valid access credential empties
the stored refresh-token field of the authenticated user. Through the
verifier the attached req.user is the model object, whose id field is
undefined, so the undefined key is stripped from the filter and
findByIdAndUpdate updates the first document of the collection: when
bob, stored second, logs out with his own valid token, both cookies
are cleared but it is the first record jane whose refresh token is
unset, while the authenticated record bob keeps his stored refresh
token. -/
theorem c3_logout_leaves_stored_refresh_token_in_place :
    logoutRoute "as" 100 [janeLoggedIn, bobLoggedIn]
        ⟨some (.signed accessTok2), none, none⟩
      = .ok (⟨200, ["accessToken", "refreshToken"],
              ⟨200, (), "user logged out successfully"⟩⟩, [jane, bobLoggedIn]) := by
  rfl

/-- C4 counterexample: the claim says a missing required field makes
register fail with ValidationError 400. With fullName absent and every
other field well formed, the blank check compares undefined with the
empty string and passes, and the failure that eventually surfaces is
the store-level required-field rejection, not the ApiError 400. -/
theorem c4_counterexample_missing_field_skips_validation :
    (registerUser upload0 5 1 ⟨none, some "jane@x.com", some "janedoe", some "pw"⟩
        ⟨some "/tmp/a.png", none⟩ []).1 = .error (.dbValidation "fullName")
    ∧ (registerUser upload0 5 1 ⟨none, some "jane@x.com", some "janedoe", some "pw"⟩
        ⟨some "/tmp/a.png", none⟩ []).1 ≠ .error (.api 400 "all fields are required") := by
  refine ⟨rfl, ?_⟩
  have h0 : (registerUser upload0 5 1 ⟨none, some "jane@x.com", some "janedoe", some "pw"⟩
      ⟨some "/tmp/a.png", none⟩ []).1 = .error (.dbValidation "fullName") := rfl
  rw [h0]
  simp

/-- C4 amended: for every registration request in which one of the
four required string fields is present but blank after trimming,
register fails with ApiError 400 listing that all fields are required
and the store is unchanged; an absent field bypasses this check. -/
theorem c4_blank_present_field_gives_validation_400
    (upload : String → Option String) (salt freshId : Nat)
    (body : RegisterBody) (files : RegisterFiles) (store : Store)
    (h : (isBlankPresent body.fullName || isBlankPresent body.email ||
          isBlankPresent body.userName || isBlankPresent body.password) = true) :
    registerUser upload salt freshId body files store
      = (.error (.api 400 "all fields are required"), store) := by
  unfold registerUser
  simp [h]

/-- C4 witness: a request whose fullName is a single space is rejected
with the 400 ApiError, the store untouched. -/
theorem c4_blank_present_field_gives_validation_400_witness :
    registerUser upload0 5 1 ⟨some " ", some "jane@x.com", some "janedoe", some "pw"⟩
        ⟨some "/tmp/a.png", none⟩ []
      = (.error (.api 400 "all fields are required"), []) :=
  c4_blank_present_field_gives_validation_400 upload0 5 1
    ⟨some " ", some "jane@x.com", some "janedoe", some "pw"⟩
    ⟨some "/tmp/a.png", none⟩ [] (by rfl)

/-- C5: for every registration request that passes the blank check
and whose handle or email duplicates a stored record up to the
lowercase and trim normalization, registerUser fails with the 409
conflict ApiError and leaves the store unchanged. -/
theorem c5_duplicate_handle_or_email_gives_conflict_409
    (upload : String → Option String) (salt freshId : Nat)
    (body : RegisterBody) (files : RegisterFiles) (store : Store)
    (hfields : (isBlankPresent body.fullName || isBlankPresent body.email ||
          isBlankPresent body.userName || isBlankPresent body.password) = false)
    (hdup : ∃ u ∈ store,
      (∃ s, body.userName = some s ∧ u.userName = normalizeKey s) ∨
      (∃ s, body.email = some s ∧ u.email = normalizeKey s)) :
    registerUser upload salt freshId body files store
      = (.error (.api 409 "UserName or Email already exists"), store) := by
  obtain ⟨u, hu, hcase⟩ := hdup
  have hp : (branchMatches (fun d => d.userName) body.userName u ||
             branchMatches (fun d => d.email) body.email u) = true := by
    rcases hcase with ⟨s, hq, he⟩ | ⟨s, hq, he⟩
    · simp [branchMatches, hq, he]
    · simp [branchMatches, hq, he]
  have hfind : findOneByUserNameOrEmail body.userName body.email store ≠ none := by
    intro hnone
    rw [findOneByUserNameOrEmail, List.find?_eq_none] at hnone
    exact (hnone u hu) hp
  cases hm : findOneByUserNameOrEmail body.userName body.email store with
  | none => exact absurd hm hfind
  | some v =>
    unfold registerUser
    simp [hfields, hm]

/-- C5 witness: with jane stored, a second registration under the
handle JaneDoe with a trailing space, differing from the stored
janedoe only by case and whitespace, is rejected with 409 and the
store is unchanged. -/
theorem c5_duplicate_handle_or_email_gives_conflict_409_witness :
    registerUser upload0 5 2
        ⟨some "Jane Two", some "other@x.com", some "JaneDoe ", some "pw2"⟩
        ⟨some "/tmp/b.png", none⟩ [jane]
      = (.error (.api 409 "UserName or Email already exists"), [jane]) :=
  c5_duplicate_handle_or_email_gives_conflict_409 upload0 5 2
    ⟨some "Jane Two", some "other@x.com", some "JaneDoe ", some "pw2"⟩
    ⟨some "/tmp/b.png", none⟩ [jane] (by rfl)
    ⟨jane, by simp, Or.inl ⟨"JaneDoe ", rfl, by rfl⟩⟩

/-- Replacing the document a lookup finds by one with the same primary
key makes the lookup after the save return the replacement. -/
theorem findById_saveToStore (i : Nat) (u v : UserDoc) (store : Store)
    (hid : v.id = u.id) :
    findById i store = some u → findById i (saveToStore v store) = some v := by
  induction store with
  | nil => intro h; simp [findById] at h
  | cons d tl ih =>
    intro h
    cases hdi : (d.id == i) with
    | true =>
      have hd : d = u := by
        simpa [findById, List.find?, hdi] using h
      have hvi : (v.id == i) = true := by
        rw [hid]; exact hd ▸ hdi
      have hrep : (d.id == v.id) = true := by
        rw [hid, ← hd]; simp
      simp [findById, saveToStore, List.find?, hrep, hvi]
    | false =>
      have h' : List.find? (fun w => w.id == i) tl = some u := by
        simpa [findById, List.find?, hdi] using h
      have hui : (u.id == i) = true := by simpa using List.find?_some h'
      have hrep : (d.id == v.id) = false := by
        have hne : d.id ≠ i := by simpa using hdi
        have hei : u.id = i := by simpa using hui
        simp [hid, hei, hne]
      have htail := ih (by simpa [findById] using h')
      simpa [findById, saveToStore, List.find?, hdi, hrep] using htail

/-- C6: over any store, once the or-lookup resolves a user, a login
whose password does not match the stored digest fails with ApiError
401 and returns the store unchanged (no token issued, no refresh
token mutated); and a login whose password matches returns status
200 carrying the freshly signed access and refresh tokens, with the
new refresh token persisted on the stored record. -/
theorem c6_login_wrong_password_401_correct_password_200 :
    (∀ (cfg : TokenConfig) (salt now : Nat) (faults : Faults) (body : LoginBody)
        (store : Store) (u : UserDoc) (p : String) (hh : BcryptHash),
      (isFalsy body.email = false ∨ isFalsy body.userName = false) →
      body.password = some p → p ≠ "" →
      findOneByUserNameOrEmail body.userName body.email store = some u →
      u.password = .hashed hh → p ≠ hh.input →
      loginUser cfg salt now faults body store
        = (.error (.api 401 "invalid user credentials"), store))
    ∧
    (∀ (cfg : TokenConfig) (salt now : Nat) (body : LoginBody)
        (store : Store) (u : UserDoc) (p : String) (hh : BcryptHash),
      (isFalsy body.email = false ∨ isFalsy body.userName = false) →
      body.password = some p → p ≠ "" →
      findOneByUserNameOrEmail body.userName body.email store = some u →
      u.password = .hashed hh → p = hh.input →
      findById u.id store = some u →
      loginUser cfg salt now ⟨false, false⟩ body store
        = (.ok { status := 200,
                 cookieAccessToken := u.generateAccessToken cfg now,
                 cookieRefreshToken := u.generateRefreshToken cfg now,
                 body := ⟨200, ⟨u, u.generateAccessToken cfg now,
                               u.generateRefreshToken cfg now⟩,
                          "User Logged in succesfully"⟩ },
           saveToStore { u with refreshToken := some (u.generateRefreshToken cfg now) } store)
      ∧ findById u.id
          (saveToStore { u with refreshToken := some (u.generateRefreshToken cfg now) } store)
          = some { u with refreshToken := some (u.generateRefreshToken cfg now) }) := by
  constructor
  · intro cfg salt now faults body store u p hh hcred hp hpne hfind hpw hwrong
    have h1 : (isFalsy body.email && isFalsy body.userName) = false := by
      rcases hcred with h | h <;> simp [h]
    have h2 : (body.password == some "") = false := by
      rw [hp]; simp [hpne]
    have h3 : bcryptCompare p hh = false := by
      simp [bcryptCompare, hwrong]
    simp [loginUser, h1, h2, hfind, UserDoc.isPasswordCorrect, hp, hpw, h3, hpne]
  · intro cfg salt now body store u p hh hcred hp hpne hfind hpw hcorrect hfindid
    have h1 : (isFalsy body.email && isFalsy body.userName) = false := by
      rcases hcred with h | h <;> simp [h]
    have h2 : (body.password == some "") = false := by
      rw [hp]; simp [hpne]
    have h3 : bcryptCompare p hh = true := by
      simp [bcryptCompare, hcorrect]
    have hgen : generateAccessAndRefreshToken cfg salt now ⟨false, false⟩ u.id store
        = (.ok (u.generateAccessToken cfg now, u.generateRefreshToken cfg now),
           saveToStore { u with refreshToken := some (u.generateRefreshToken cfg now) } store) := by
      simp [generateAccessAndRefreshToken, hfindid, preSaveHook]
    constructor
    · simp [loginUser, h1, h2, hfind, UserDoc.isPasswordCorrect, hp, hpw, h3, hgen, hpne]
    · exact findById_saveToStore u.id u _ store rfl hfindid

/-- C6 witness: over the store holding jane, the wrong password gives
the 401 error with the store unchanged, and the correct password gives
the 200 response with both signed tokens and persists the fresh
refresh token on the record. -/
theorem c6_login_wrong_password_401_correct_password_200_witness :
    (loginUser cfg0 5 100 ⟨false, false⟩ ⟨some "janedoe", none, some "wrong"⟩ [jane]
       = (.error (.api 401 "invalid user credentials"), [jane]))
    ∧ ((loginUser cfg0 5 100 ⟨false, false⟩ ⟨some "janedoe", none, some "secret123"⟩ [jane]
        = (.ok { status := 200,
                 cookieAccessToken := jane.generateAccessToken cfg0 100,
                 cookieRefreshToken := jane.generateRefreshToken cfg0 100,
                 body := ⟨200, ⟨jane, jane.generateAccessToken cfg0 100,
                               jane.generateRefreshToken cfg0 100⟩,
                          "User Logged in succesfully"⟩ },
           saveToStore { jane with refreshToken := some (jane.generateRefreshToken cfg0 100) } [jane]))
      ∧ findById jane.id
          (saveToStore { jane with refreshToken := some (jane.generateRefreshToken cfg0 100) } [jane])
          = some { jane with refreshToken := some (jane.generateRefreshToken cfg0 100) }) :=
  ⟨c6_login_wrong_password_401_correct_password_200.1 cfg0 5 100 ⟨false, false⟩
      ⟨some "janedoe", none, some "wrong"⟩ [jane] jane "wrong" ⟨11, 5, "secret123"⟩
      (Or.inr (by rfl)) rfl (by decide) (by rfl) rfl (by decide),
   c6_login_wrong_password_401_correct_password_200.2 cfg0 5 100
      ⟨some "janedoe", none, some "secret123"⟩ [jane] jane "secret123" ⟨11, 5, "secret123"⟩
      (Or.inr (by rfl)) rfl (by decide) (by rfl) rfl rfl (by rfl)⟩

/-- C7: the pre-save hook leaves the password untouched on saves where
the password path was not modified, and on a modified plaintext
password produces exactly one bcrypt digest of it; the logout update
of the refresh-token field never touches any stored password; and the
login-time save of the fresh refresh token leaves the password of
every stored document unchanged. -/
theorem c7_password_hash_recomputed_exactly_when_modified :
    (∀ (salt : Nat) (u : UserDoc), preSaveHook salt false u = u)
    ∧ (∀ (salt : Nat) (p : String) (u : UserDoc), u.password = .plain p →
        (preSaveHook salt true u).password = .hashed (bcryptHashStr salt 11 p))
    ∧ (∀ (i : Nat) (store : Store),
        (findByIdAndUpdateUnsetRefreshToken (some i) store).map (fun d => d.password)
          = store.map (fun d => d.password))
    ∧ (∀ (cfg : TokenConfig) (salt now uid : Nat) (store : Store) (u : UserDoc),
        (store.map (fun d => d.id)).Nodup →
        findById uid store = some u →
        (generateAccessAndRefreshToken cfg salt now ⟨false, false⟩ uid store).2.map
            (fun d => d.password)
          = store.map (fun d => d.password)) := by
  refine ⟨?_, ?_, ?_, ?_⟩
  · intro salt u
    simp [preSaveHook]
  · intro salt p u h
    simp [preSaveHook, hashPasswordField, h]
  · intro i store
    simp only [findByIdAndUpdateUnsetRefreshToken, List.map_map]
    apply List.map_congr_left
    intro d _
    by_cases h : d.id = i <;> simp [h]
  · intro cfg salt now uid store u hnodup hfind
    have hmem : u ∈ store := List.mem_of_find?_eq_some hfind
    have hres : (generateAccessAndRefreshToken cfg salt now ⟨false, false⟩ uid store).2
        = saveToStore { u with refreshToken := some (u.generateRefreshToken cfg now) } store := by
      simp [generateAccessAndRefreshToken, hfind, preSaveHook]
    rw [hres]
    simp only [saveToStore, List.map_map]
    apply List.map_congr_left
    intro d hd
    by_cases h : d.id = u.id
    · have hdu : d = u := List.inj_on_of_nodup_map hnodup hd hmem h
      simp [hdu]
    · simp [h]

/-- C7 witness: on the concrete record jane, an unmodified save keeps
the document, a modified plaintext is hashed once, and the logout
update and the login-time token save keep every stored hash. -/
theorem c7_password_hash_recomputed_exactly_when_modified_witness :
    preSaveHook 5 false jane = jane
    ∧ (preSaveHook 5 true { jane with password := .plain "newpass" }).password
        = .hashed (bcryptHashStr 5 11 "newpass")
    ∧ (findByIdAndUpdateUnsetRefreshToken (some 1) [janeLoggedIn]).map (fun d => d.password)
        = [janeLoggedIn].map (fun d => d.password)
    ∧ (generateAccessAndRefreshToken cfg0 5 100 ⟨false, false⟩ 1 [jane]).2.map
          (fun d => d.password)
        = [jane].map (fun d => d.password) :=
  ⟨c7_password_hash_recomputed_exactly_when_modified.1 5 jane,
   c7_password_hash_recomputed_exactly_when_modified.2.1 5 "newpass"
     { jane with password := .plain "newpass" } rfl,
   c7_password_hash_recomputed_exactly_when_modified.2.2.1 1 [janeLoggedIn],
   c7_password_hash_recomputed_exactly_when_modified.2.2.2 cfg0 5 100 1 [jane] jane
     (by decide) rfl⟩

/-- C8: for a record whose stored field is the digest of plaintext p,
isPasswordCorrect accepts p and rejects every other plaintext (in the
ideal collision-free model of bcrypt). -/
theorem c8_password_verification_roundtrip
    (salt : Nat) (p p2 : String) (u : UserDoc)
    (h : u.password = .hashed (bcryptHashStr salt 11 p)) :
    u.isPasswordCorrect (some p) = .ok true
    ∧ (p2 ≠ p → u.isPasswordCorrect (some p2) = .ok false) := by
  constructor
  · simp [UserDoc.isPasswordCorrect, h, bcryptCompare, bcryptHashStr]
  · intro hne
    simp [UserDoc.isPasswordCorrect, h, bcryptCompare, bcryptHashStr, hne]

/-- C8 witness: jane accepts secret123 and rejects Secret123. -/
theorem c8_password_verification_roundtrip_witness :
    jane.isPasswordCorrect (some "secret123") = .ok true
    ∧ jane.isPasswordCorrect (some "Secret123") = .ok false :=
  ⟨(c8_password_verification_roundtrip 5 "secret123" "x" jane rfl).1,
   (c8_password_verification_roundtrip 5 "secret123" "Secret123" jane rfl).2 (by decide)⟩

/-- C9: verifying the access token issued over the identity claims of
a record against the access secret recovers exactly id, Email,
UserName and fullName at any instant before the configured expiry has
elapsed, and fails with the expiry-specific error at any instant from
the expiry on. -/
theorem c9_access_token_roundtrip
    (cfg : TokenConfig) (now t : Nat) (u : UserDoc) :
    (t < now + cfg.accessExpiry →
      jwtVerify (.signed (u.generateAccessToken cfg now)) cfg.accessSecret t
        = .ok (.access u.id u.email u.userName u.fullName))
    ∧ (now + cfg.accessExpiry ≤ t →
      jwtVerify (.signed (u.generateAccessToken cfg now)) cfg.accessSecret t
        = .error .expired) := by
  constructor
  · intro h
    simp [jwtVerify, UserDoc.generateAccessToken, jwtSign, Nat.not_le.mpr h]
  · intro h
    simp [jwtVerify, UserDoc.generateAccessToken, jwtSign, h]

/-- C9 witness: the token issued over jane at instant 100 with expiry
60 verifies to the original claims at 150 and is expired at 160. -/
theorem c9_access_token_roundtrip_witness :
    jwtVerify (.signed (jane.generateAccessToken cfg0 100)) cfg0.accessSecret 150
      = .ok (.access 1 "jane@x.com" "janedoe" "Jane Doe")
    ∧ jwtVerify (.signed (jane.generateAccessToken cfg0 100)) cfg0.accessSecret 160
      = .error .expired :=
  ⟨(c9_access_token_roundtrip cfg0 100 150 jane).1 (by decide),
   (c9_access_token_roundtrip cfg0 100 160 jane).2 (by decide)⟩

/-- C10: every failure of the token-generation step, the missing-user
case the spec classes as NotFoundError included, surfaces as the one
ApiError 500 with the fixed message, so the caller cannot tell a
missing identity from a signing or persistence failure; and each of
the three causes does produce exactly that error with the store
unchanged. -/
theorem c10_token_generation_collapses_every_failure_to_500 :
    (∀ (cfg : TokenConfig) (salt now : Nat) (faults : Faults) (uid : Nat)
        (store : Store) (e : CtrlError),
      (generateAccessAndRefreshToken cfg salt now faults uid store).1 = .error e →
      e = .api 500 "problem is here")
    ∧ (∀ (cfg : TokenConfig) (salt now : Nat) (faults : Faults) (uid : Nat)
        (store : Store),
      findById uid store = none ∨ faults.signFails = true ∨ faults.saveFails = true →
      generateAccessAndRefreshToken cfg salt now faults uid store
        = (.error (.api 500 "problem is here"), store)) := by
  constructor
  · intro cfg salt now faults uid store e h
    unfold generateAccessAndRefreshToken at h
    cases hf : findById uid store with
    | none => rw [hf] at h; simp at h; exact h.symm
    | some u =>
      rw [hf] at h
      by_cases hs : faults.signFails = true
      · simp [hs] at h; exact h.symm
      · have hs0 : faults.signFails = false := by simpa using hs
        by_cases hv : faults.saveFails = true
        · simp [hs0, hv] at h; exact h.symm
        · have hv0 : faults.saveFails = false := by simpa using hv
          simp [hs0, hv0] at h
  · intro cfg salt now faults uid store hcase
    rcases hcase with h | h | h
    · simp [generateAccessAndRefreshToken, h]
    · cases hf : findById uid store with
      | none => simp [generateAccessAndRefreshToken, hf]
      | some u => simp [generateAccessAndRefreshToken, hf, h]
    · cases hf : findById uid store with
      | none => simp [generateAccessAndRefreshToken, hf]
      | some u =>
        by_cases hs : faults.signFails = true
        · simp [generateAccessAndRefreshToken, hf, hs]
        · have hs0 : faults.signFails = false := by simpa using hs
          simp [generateAccessAndRefreshToken, hf, hs0, h]

/-- C10 witness: over the empty store, the step fails for any id with
exactly ApiError 500 and the fixed message, not with the 404. -/
theorem c10_token_generation_collapses_every_failure_to_500_witness :
    generateAccessAndRefreshToken cfg0 5 100 ⟨false, false⟩ 42 []
      = (.error (.api 500 "problem is here"), []) :=
  c10_token_generation_collapses_every_failure_to_500.2 cfg0 5 100 ⟨false, false⟩ 42 []
    (Or.inl rfl)

end EnergyAuth
